import Mathlib

/-!
Shallow embedding of the exchange-rate aggregation core
(`src/models/exchange_models.py`, `src/interfaces/exchange_api_interface.py`,
`src/apis/api1_json_provider.py`, `src/apis/api2_xml_provider.py`,
`src/apis/api3_complex_json_provider.py`, `src/services/exchange_service.py`).

Python floats are modelled as rationals (`ℚ`); dynamic JSON/XML payloads as a
small JSON value type; a raised Python exception as the `Except.error` channel.
-/

/-- A parsed dynamic payload: what `response.json()` (API1/API3) or
`xmltodict.parse` (API2) hands to `_parse_response`.  Objects are
association lists in field order. -/
inductive JsonVal where
  | num (q : ℚ)
  | str (s : String)
  | null
  | obj (fields : List (String × JsonVal))

/-- Python `x != 200` on a payload value: numeric comparison; any non-number
differs from `200`. -/
def JsonVal.ne200 : JsonVal → Bool
  | .num q => q ≠ 200
  | _ => true

/-- `d[k]` / `k in d` on a dict payload: first binding of the key, `none` when
the key is absent or the value is not a dict. -/
def JsonVal.get : JsonVal → String → Option JsonVal
  | .obj fields, k => go fields k
  | _, _ => none
where go : List (String × JsonVal) → String → Option JsonVal
  | [], _ => none
  | (k', v) :: rest, k => if k' = k then some v else go rest k

/-- `d.get(k, default)` on a dict payload. -/
def JsonVal.getD (d : JsonVal) (k : String) (default : JsonVal) : JsonVal :=
  (d.get k).getD default

/-- Digits of a decimal literal chunk, `none` when empty or non-digit. -/
def decimalDigits : List Char → Option Nat
  | [] => none
  | cs => cs.foldlM (fun acc c =>
      if c.isDigit then some (acc * 10 + (c.toNat - 48)) else none) 0

/-- `str.strip()` on the character list: ASCII whitespace off both ends. -/
def trimChars (cs : List Char) : List Char :=
  ((cs.dropWhile Char.isWhitespace).reverse.dropWhile Char.isWhitespace).reverse

/-- Split a character list at every dot, keeping empty chunks. -/
def splitOnDot : List Char → List (List Char)
  | [] => [[]]
  | c :: rest =>
      if c = '.' then [] :: splitOnDot rest
      else
        match splitOnDot rest with
        | [] => [[c]]
        | h :: rest2 => (c :: h) :: rest2

/-- An unsigned Python float literal: `"850"`, `"0.85"`, `"1."`, `".5"`. -/
def parseUnsignedDecimal (cs : List Char) : Option ℚ :=
  match splitOnDot cs with
  | [i] => (decimalDigits i).map (fun n => (n : ℚ))
  | [i, f] =>
      if i.isEmpty ∧ f.isEmpty then none
      else if f.isEmpty then (decimalDigits i).map (fun n => (n : ℚ))
      else
        match decimalDigits f with
        | none => none
        | some fn =>
            if i.isEmpty then some ((fn : ℚ) / ((10 : ℚ) ^ f.length))
            else
              match decimalDigits i with
              | none => none
              | some n => some ((n : ℚ) + (fn : ℚ) / ((10 : ℚ) ^ f.length))
  | _ => none

/-- Python `float(string)`: optional sign, then a decimal literal. -/
def pyFloatOfString (s0 : String) : Option ℚ :=
  match trimChars s0.data with
  | '-' :: rest => (parseUnsignedDecimal rest).map Neg.neg
  | '+' :: rest => parseUnsignedDecimal rest
  | cs => parseUnsignedDecimal cs

/-- Python `float(x)` on a payload value: numbers pass through, numeric strings
parse, anything else raises (`Except.error` = the raised `ValueError`). -/
def pyFloat : JsonVal → Except String ℚ
  | .num q => .ok q
  | .str s =>
      match pyFloatOfString s with
      | some q => .ok q
      | none => .error ("could not convert string to float: " ++ s)
  | _ => .error "float() argument must be a string or a real number"

/-- `ExchangeRequest` (src/models/exchange_models.py) after successful
`__post_init__` validation: codes already upper-cased, amount positive. -/
structure ExchangeRequest where
  source_currency : String
  target_currency : String
  amount : ℚ
deriving DecidableEq

/-- The `amount` argument as passed dynamically in Python: a number, or a
value of some other type (e.g. a string), which `isinstance` rejects. -/
inductive PyAmount where
  | num (q : ℚ)
  | nonNumeric
deriving DecidableEq

/-- Python `str.upper()`: per-character upper-casing (ASCII semantics). -/
def pyUpper (s : String) : String := ⟨s.data.map Char.toUpper⟩

/-- `ExchangeRequest.__post_init__`: source length check, target length
check, amount type/positivity check — in source order, on the raw inputs —
then upper-casing of both codes.  `Except.error` is the raised `ValueError`. -/
def mkExchangeRequest (source_currency target_currency : String)
    (amount : PyAmount) : Except String ExchangeRequest :=
  if source_currency.length ≠ 3 then
    .error "La moneda de origen debe ser un código de 3 letras"
  else if target_currency.length ≠ 3 then
    .error "La moneda de destino debe ser un código de 3 letras"
  else
    match amount with
    | .nonNumeric => .error "La cantidad debe ser un número positivo"
    | .num q =>
        if q ≤ 0 then .error "La cantidad debe ser un número positivo"
        else .ok { source_currency := pyUpper source_currency,
                   target_currency := pyUpper target_currency,
                   amount := q }

/-- `ExchangeResponse` (src/models/exchange_models.py). -/
structure ExchangeResponse where
  provider_name : String
  converted_amount : ℚ
  rate : ℚ
  response_time_ms : ℚ
  success : Bool
  error_message : Option String := none
  raw_response : Option JsonVal := none

/-- `BestExchangeResult` (src/models/exchange_models.py). -/
structure BestExchangeResult where
  best_provider : String
  best_rate : ℚ
  best_converted_amount : ℚ
  source_currency : String
  target_currency : String
  original_amount : ℚ
  total_providers_queried : ℕ
  successful_providers : ℕ
  failed_providers : ℕ
  total_time_ms : ℚ

/-- `ExchangeAPIInterface._create_error_response`, with the adapter's
`self.name` passed explicitly. -/
def createErrorResponse (name : String) (error_message : String)
    (response_time_ms : ℚ) : ExchangeResponse :=
  { provider_name := name,
    converted_amount := 0,
    rate := 0,
    response_time_ms := response_time_ms,
    success := false,
    error_message := some error_message }

/-- What the outside world did to one adapter's HTTP call:
`timeout` — `asyncio.TimeoutError` raised while connecting;
`netError` — any other exception raised by the session/post machinery;
`reply status body` — an HTTP reply, where `body` is the outcome of decoding
the payload (`response.json()` for API1/API3, `xmltodict.parse` of
`response.text()` for API2): `Except.error` = the decoder raised. -/
inductive HttpOutcome where
  | timeout
  | netError (msg : String)
  | reply (status : ℕ) (body : Except String JsonVal)

namespace API1JsonProvider

/-- `self.name` of `API1JsonProvider`. -/
def name : String := "API1_JSON"

/-- `API1JsonProvider._parse_response`: requires a `"rate"` field, converts it
with `float`, computes `converted_amount = request.amount * rate`; a
conversion failure is caught and normalized. -/
def parse_response (response_data : JsonVal) (request : ExchangeRequest)
    (response_time_ms : ℚ) : ExchangeResponse :=
  match response_data.get "rate" with
  | none => createErrorResponse name "Formato de respuesta inválido de API1" response_time_ms
  | some v =>
      match pyFloat v with
      | .error e =>
          createErrorResponse name ("Error al procesar datos de API1: " ++ e) response_time_ms
      | .ok rate =>
          { provider_name := name,
            converted_amount := request.amount * rate,
            rate := rate,
            response_time_ms := response_time_ms,
            success := true,
            raw_response := some response_data }

/-- `API1JsonProvider.get_exchange_rate`: posts the request; non-200 status,
timeout, transport faults and body-decode faults each become an error
response via the surrounding `try`/`except`; a 200 JSON body is handed to
`_parse_response`.  `response_time_ms` (wall-clock) is a parameter. -/
def get_exchange_rate (outcome : HttpOutcome) (request : ExchangeRequest)
    (response_time_ms : ℚ) : ExchangeResponse :=
  match outcome with
  | .timeout => createErrorResponse name "Timeout al conectar con API1" response_time_ms
  | .netError e =>
      createErrorResponse name ("Error al procesar la respuesta de API1: " ++ e) response_time_ms
  | .reply status body =>
      if status ≠ 200 then
        createErrorResponse name ("Error en API1: Código de estado " ++ toString status)
          response_time_ms
      else
        match body with
        | .error e =>
            createErrorResponse name ("Error al procesar la respuesta de API1: " ++ e)
              response_time_ms
        | .ok response_data => parse_response response_data request response_time_ms

end API1JsonProvider

namespace API2XmlProvider

/-- `self.name` of `API2XmlProvider`. -/
def name : String := "API2_XML"

/-- `API2XmlProvider._parse_response`: requires `XML.Result`, converts it with
`float`; the result is the converted amount and `rate` is derived as
`converted_amount / request.amount`. -/
def parse_response (response_data : JsonVal) (request : ExchangeRequest)
    (response_time_ms : ℚ) : ExchangeResponse :=
  match response_data.get "XML" with
  | none => createErrorResponse name "Formato de respuesta XML inválido de API2" response_time_ms
  | some inner =>
      match inner.get "Result" with
      | none =>
          createErrorResponse name "Formato de respuesta XML inválido de API2" response_time_ms
      | some v =>
          match pyFloat v with
          | .error e =>
              createErrorResponse name ("Error al procesar datos XML de API2: " ++ e)
                response_time_ms
          | .ok result =>
              let converted_amount := result
              let rate := converted_amount / request.amount
              { provider_name := name,
                converted_amount := converted_amount,
                rate := rate,
                response_time_ms := response_time_ms,
                success := true,
                raw_response := some response_data }

/-- `API2XmlProvider.get_exchange_rate`: as API1, with the XML decode failure
message of the inner `try`/`except`. -/
def get_exchange_rate (outcome : HttpOutcome) (request : ExchangeRequest)
    (response_time_ms : ℚ) : ExchangeResponse :=
  match outcome with
  | .timeout => createErrorResponse name "Timeout al conectar con API2" response_time_ms
  | .netError e =>
      createErrorResponse name ("Error al procesar la respuesta de API2: " ++ e) response_time_ms
  | .reply status body =>
      if status ≠ 200 then
        createErrorResponse name ("Error en API2: Código de estado " ++ toString status)
          response_time_ms
      else
        match body with
        | .error e =>
            createErrorResponse name ("Error al parsear XML de API2: " ++ e) response_time_ms
        | .ok response_data => parse_response response_data request response_time_ms

end API2XmlProvider

namespace API3ComplexJsonProvider

/-- `self.name` of `API3ComplexJsonProvider`. -/
def name : String := "API3_ComplexJSON"

/-- `API3ComplexJsonProvider._parse_response`: requires `statusCode` and
`data.total`; a payload `statusCode ≠ 200` is a normalized failure carrying
the payload's `message` (default `"Error desconocido en API3"`); otherwise
`data.total` is the converted amount and `rate = converted_amount / amount`. -/
def parse_response (response_data : JsonVal) (request : ExchangeRequest)
    (response_time_ms : ℚ) : ExchangeResponse :=
  if (response_data.get "statusCode").isNone ||
     (response_data.get "data").isNone ||
     (((response_data.get "data").getD .null).get "total").isNone then
    createErrorResponse name "Formato de respuesta inválido de API3" response_time_ms
  else if (((response_data.get "statusCode").getD .null)).ne200 then
    let error_message :=
      match response_data.get "message" with
      | some (.str m) => m
      | _ => "Error desconocido en API3"
    createErrorResponse name error_message response_time_ms
  else
    match pyFloat (((response_data.get "data").getD .null).getD "total" .null) with
    | .error e =>
        createErrorResponse name ("Error al procesar datos de API3: " ++ e) response_time_ms
    | .ok converted_amount =>
        let rate := converted_amount / request.amount
        { provider_name := name,
          converted_amount := converted_amount,
          rate := rate,
          response_time_ms := response_time_ms,
          success := true,
          raw_response := some response_data }

/-- `API3ComplexJsonProvider.get_exchange_rate`: as API1, with API3 messages. -/
def get_exchange_rate (outcome : HttpOutcome) (request : ExchangeRequest)
    (response_time_ms : ℚ) : ExchangeResponse :=
  match outcome with
  | .timeout => createErrorResponse name "Timeout al conectar con API3" response_time_ms
  | .netError e =>
      createErrorResponse name ("Error al procesar la respuesta de API3: " ++ e) response_time_ms
  | .reply status body =>
      if status ≠ 200 then
        createErrorResponse name ("Error en API3: Código de estado " ++ toString status)
          response_time_ms
      else
        match body with
        | .error e =>
            createErrorResponse name ("Error al procesar la respuesta de API3: " ++ e)
              response_time_ms
        | .ok response_data => parse_response response_data request response_time_ms

end API3ComplexJsonProvider

/-- An adapter as the aggregation service sees it: a `name` and the awaited
`get_exchange_rate` call.  `Except.error msg` models the call raising an
exception in spite of the interface's no-throw contract (the defensive case
of `_get_rate_with_semaphore`); `Except.ok` is a normal return. -/
structure Provider where
  name : String
  call : ExchangeRequest → Except String ExchangeResponse

/-- `ExchangeService._get_rate_with_semaphore` (the body inside the
semaphore): return the provider's response, or convert a raised exception
into a failed `ExchangeResponse` naming the provider and the fault. -/
def getRateWithSemaphore (provider : Provider) (request : ExchangeRequest) :
    ExchangeResponse :=
  match provider.call request with
  | .ok r => r
  | .error e =>
      { provider_name := provider.name,
        converted_amount := 0,
        rate := 0,
        response_time_ms := 0,
        success := false,
        error_message := some ("Error inesperado: " ++ e) }

/-- Python `max(iterable, key=k)` after taking the first element as the
running best: a later element replaces the running best only when its key is
STRICTLY greater, so the first maximal element wins ties. -/
def pyMaxBy (key : α → ℚ) : α → List α → α
  | best, [] => best
  | best, x :: xs => if key best < key x then pyMaxBy key x xs else pyMaxBy key best xs

/-- The `responses` list of `ExchangeService.get_best_exchange_rate`:
`asyncio.gather` over one `_get_rate_with_semaphore` task per configured
provider, results in configuration order. -/
def allResponses (api_providers : List Provider) (request : ExchangeRequest) :
    List ExchangeResponse :=
  api_providers.map (fun provider => getRateWithSemaphore provider request)

/-- The `successful_responses` list: responses filtered by `success`. -/
def successfulResponses (api_providers : List Provider) (request : ExchangeRequest) :
    List ExchangeResponse :=
  (allResponses api_providers request).filter (fun r => r.success)

/-- `ExchangeService.get_best_exchange_rate`: gather all responses, count
successes and failures, return the `"NINGUNO"` sentinel result when no
response succeeded, else build the result from the successful response with
maximal `converted_amount` (Python `max` with key `r.converted_amount`).
`total_time_ms` (wall clock) is a parameter. -/
def get_best_exchange_rate (api_providers : List Provider)
    (request : ExchangeRequest) (total_time_ms : ℚ) : BestExchangeResult :=
  let responses := allResponses api_providers request
  let successful_responses := responses.filter (fun r => r.success)
  let successful_count := successful_responses.length
  let failed_count := responses.length - successful_count
  match successful_responses with
  | [] =>
      { best_provider := "NINGUNO",
        best_rate := 0,
        best_converted_amount := 0,
        source_currency := request.source_currency,
        target_currency := request.target_currency,
        original_amount := request.amount,
        total_providers_queried := api_providers.length,
        successful_providers := 0,
        failed_providers := api_providers.length,
        total_time_ms := total_time_ms }
  | first :: rest =>
      let best_response := pyMaxBy (fun r => r.converted_amount) first rest
      { best_provider := best_response.provider_name,
        best_rate := best_response.rate,
        best_converted_amount := best_response.converted_amount,
        source_currency := request.source_currency,
        target_currency := request.target_currency,
        original_amount := request.amount,
        total_providers_queried := api_providers.length,
        successful_providers := successful_count,
        failed_providers := failed_count,
        total_time_ms := total_time_ms }

/-- Progress of one adapter task through `_get_rate_with_semaphore`:
not yet let through by the semaphore, holding a permit (inside `async with semaphore`),
or completed (permit released). -/
inductive TaskStatus where
  | notStarted
  | inFlight
  | finished
deriving DecidableEq

/-- Whether a task currently holds a semaphore permit. -/
def TaskStatus.isInFlight : TaskStatus → Bool
  | .inFlight => true
  | _ => false

/-- Whether a task has completed. -/
def TaskStatus.isFinished : TaskStatus → Bool
  | .finished => true
  | _ => false

/-- Number of tasks currently holding a semaphore permit. -/
def inFlightCount (tasks : List TaskStatus) : ℕ :=
  tasks.countP TaskStatus.isInFlight

/-- Small-step semantics of `asyncio.Semaphore(C)` over the task list created
by `get_best_exchange_rate` (one task per adapter): a task may acquire a
permit only while fewer than `C` permits are held, and a task holding a permit may
complete, releasing it.  No step removes or duplicates a task. -/
inductive SemStep (C : ℕ) : List TaskStatus → List TaskStatus → Prop where
  | acquire (tasks : List TaskStatus) (i : ℕ)
      (hi : tasks.get? i = some TaskStatus.notStarted)
      (hc : inFlightCount tasks < C) :
      SemStep C tasks (tasks.set i TaskStatus.inFlight)
  | complete (tasks : List TaskStatus) (i : ℕ)
      (hi : tasks.get? i = some TaskStatus.inFlight) :
      SemStep C tasks (tasks.set i TaskStatus.finished)

/-- The scheduler state when `get_best_exchange_rate` has created its `tasks`
list (one per configured adapter) and no task has run yet. -/
def initTasks (n : ℕ) : List TaskStatus :=
  List.replicate n TaskStatus.notStarted

/-- States the scheduler can reach from the initial task list under the
semaphore discipline. -/
def ReachableTasks (C n : ℕ) (tasks : List TaskStatus) : Prop :=
  Relation.ReflTransGen (SemStep C) (initTasks n) tasks

/-- `asyncio.gather` returns — and the reduction in
`get_best_exchange_rate` runs — only once every task has completed. -/
def gatherDone (tasks : List TaskStatus) : Bool :=
  tasks.all TaskStatus.isFinished

/-- The invariant the spec demands of every `ExchangeResponse` an adapter or
the service boundary produces: a failure zeroes the numeric fields and sets
`error_message`; a success leaves `error_message` absent. -/
def responseWellFormed (r : ExchangeResponse) : Prop :=
  (r.success = false →
      r.converted_amount = 0 ∧ r.rate = 0 ∧ r.error_message.isSome = true) ∧
  (r.success = true → r.error_message = none)

theorem createErrorResponse_wellFormed (name msg : String) (t : ℚ) :
    responseWellFormed (createErrorResponse name msg t) := by
  constructor
  · intro _
    exact ⟨rfl, rfl, rfl⟩
  · intro h
    simp [createErrorResponse] at h

theorem api1_parse_wellFormed (d : JsonVal) (req : ExchangeRequest) (t : ℚ) :
    responseWellFormed (API1JsonProvider.parse_response d req t) := by
  unfold API1JsonProvider.parse_response
  split
  · exact createErrorResponse_wellFormed _ _ _
  · split
    · exact createErrorResponse_wellFormed _ _ _
    · exact ⟨fun h => by simp at h, fun _ => rfl⟩

theorem api2_parse_wellFormed (d : JsonVal) (req : ExchangeRequest) (t : ℚ) :
    responseWellFormed (API2XmlProvider.parse_response d req t) := by
  unfold API2XmlProvider.parse_response
  split
  · exact createErrorResponse_wellFormed _ _ _
  · split
    · exact createErrorResponse_wellFormed _ _ _
    · split
      · exact createErrorResponse_wellFormed _ _ _
      · exact ⟨fun h => by simp at h, fun _ => rfl⟩

theorem api3_parse_wellFormed (d : JsonVal) (req : ExchangeRequest) (t : ℚ) :
    responseWellFormed (API3ComplexJsonProvider.parse_response d req t) := by
  unfold API3ComplexJsonProvider.parse_response
  split
  · exact createErrorResponse_wellFormed _ _ _
  · split
    · exact createErrorResponse_wellFormed _ _ _
    · split
      · exact createErrorResponse_wellFormed _ _ _
      · exact ⟨fun h => by simp at h, fun _ => rfl⟩

theorem api1_get_wellFormed (o : HttpOutcome) (req : ExchangeRequest) (t : ℚ) :
    responseWellFormed (API1JsonProvider.get_exchange_rate o req t) := by
  unfold API1JsonProvider.get_exchange_rate
  cases o with
  | timeout => exact createErrorResponse_wellFormed _ _ _
  | netError e => exact createErrorResponse_wellFormed _ _ _
  | reply status body =>
      dsimp only
      split
      · exact createErrorResponse_wellFormed _ _ _
      · cases body with
        | error e => exact createErrorResponse_wellFormed _ _ _
        | ok d => exact api1_parse_wellFormed d req t

theorem api2_get_wellFormed (o : HttpOutcome) (req : ExchangeRequest) (t : ℚ) :
    responseWellFormed (API2XmlProvider.get_exchange_rate o req t) := by
  unfold API2XmlProvider.get_exchange_rate
  cases o with
  | timeout => exact createErrorResponse_wellFormed _ _ _
  | netError e => exact createErrorResponse_wellFormed _ _ _
  | reply status body =>
      dsimp only
      split
      · exact createErrorResponse_wellFormed _ _ _
      · cases body with
        | error e => exact createErrorResponse_wellFormed _ _ _
        | ok d => exact api2_parse_wellFormed d req t

theorem api3_get_wellFormed (o : HttpOutcome) (req : ExchangeRequest) (t : ℚ) :
    responseWellFormed (API3ComplexJsonProvider.get_exchange_rate o req t) := by
  unfold API3ComplexJsonProvider.get_exchange_rate
  cases o with
  | timeout => exact createErrorResponse_wellFormed _ _ _
  | netError e => exact createErrorResponse_wellFormed _ _ _
  | reply status body =>
      dsimp only
      split
      · exact createErrorResponse_wellFormed _ _ _
      · cases body with
        | error e => exact createErrorResponse_wellFormed _ _ _
        | ok d => exact api3_parse_wellFormed d req t

theorem getRateWithSemaphore_error (p : Provider) (req : ExchangeRequest)
    (e : String) (h : p.call req = Except.error e) :
    getRateWithSemaphore p req =
      { provider_name := p.name,
        converted_amount := 0,
        rate := 0,
        response_time_ms := 0,
        success := false,
        error_message := some ("Error inesperado: " ++ e) } := by
  unfold getRateWithSemaphore
  rw [h]

theorem pyMaxBy_decomp {α : Type} (key : α → ℚ) (best : α) (xs : List α) :
    ∃ l1 l2, best :: xs = l1 ++ pyMaxBy key best xs :: l2 ∧
      (∀ y ∈ l1, key y < key (pyMaxBy key best xs)) ∧
      (∀ y ∈ l2, key y ≤ key (pyMaxBy key best xs)) := by
  induction xs generalizing best with
  | nil =>
      exact ⟨[], [], by simp [pyMaxBy], by simp, by simp⟩
  | cons x xs ih =>
      by_cases h : key best < key x
      · have hr : pyMaxBy key best (x :: xs) = pyMaxBy key x xs := by
          simp [pyMaxBy, h]
        obtain ⟨l1, l2, heq, h1, h2⟩ := ih x
        have hx : key x ≤ key (pyMaxBy key x xs) := by
          have hmem : x ∈ l1 ++ pyMaxBy key x xs :: l2 := by
            rw [← heq]; exact List.mem_cons_self _ _
          rcases List.mem_append.mp hmem with h' | h'
          · exact le_of_lt (h1 x h')
          · rcases List.mem_cons.mp h' with h'' | h''
            · exact le_of_eq (congrArg key h'')
            · exact h2 x h''
        refine ⟨best :: l1, l2, ?_, ?_, ?_⟩
        · rw [hr, List.cons_append]
          exact congrArg (best :: ·) heq
        · intro y hy
          rw [hr]
          rcases List.mem_cons.mp hy with rfl | hy'
          · exact lt_of_lt_of_le h hx
          · exact h1 y hy'
        · intro y hy; rw [hr]; exact h2 y hy
      · have hr : pyMaxBy key best (x :: xs) = pyMaxBy key best xs := by
          simp [pyMaxBy, h]
        obtain ⟨l1, l2, heq, h1, h2⟩ := ih best
        have hxb : key x ≤ key best := le_of_not_lt h
        cases l1 with
        | nil =>
            simp only [List.nil_append, List.cons.injEq] at heq
            refine ⟨[], x :: l2, ?_, by simp, ?_⟩
            · rw [hr, ← heq.1, List.nil_append, ← heq.2]
            · intro y hy
              rw [hr]
              rcases List.mem_cons.mp hy with rfl | hy'
              · rw [← heq.1]; exact hxb
              · exact h2 y hy'
        | cons b l1' =>
            simp only [List.cons_append, List.cons.injEq] at heq
            have hbestlt : key best < key (pyMaxBy key best xs) := by
              have := h1 b (List.mem_cons_self b l1')
              exact lt_of_eq_of_lt (congrArg key heq.1) this
            refine ⟨best :: x :: l1', l2, ?_, ?_, ?_⟩
            · rw [hr, List.cons_append, List.cons_append]
              exact congrArg (best :: x :: ·) heq.2
            · intro y hy
              rw [hr]
              rcases List.mem_cons.mp hy with rfl | hy'
              · exact hbestlt
              · rcases List.mem_cons.mp hy' with rfl | hy''
                · exact lt_of_le_of_lt hxb hbestlt
                · exact h1 y (List.mem_cons_of_mem _ hy'')
            · intro y hy; rw [hr]; exact h2 y hy

theorem get_best_eq_nil (api_providers : List Provider) (request : ExchangeRequest)
    (total_time_ms : ℚ)
    (hs : successfulResponses api_providers request = []) :
    get_best_exchange_rate api_providers request total_time_ms =
      { best_provider := "NINGUNO",
        best_rate := 0,
        best_converted_amount := 0,
        source_currency := request.source_currency,
        target_currency := request.target_currency,
        original_amount := request.amount,
        total_providers_queried := api_providers.length,
        successful_providers := 0,
        failed_providers := api_providers.length,
        total_time_ms := total_time_ms } := by
  unfold successfulResponses at hs
  simp only [get_best_exchange_rate]
  rw [hs]

theorem get_best_eq_cons (api_providers : List Provider) (request : ExchangeRequest)
    (total_time_ms : ℚ) (first : ExchangeResponse) (rest : List ExchangeResponse)
    (hs : successfulResponses api_providers request = first :: rest) :
    get_best_exchange_rate api_providers request total_time_ms =
      { best_provider := (pyMaxBy (fun r => r.converted_amount) first rest).provider_name,
        best_rate := (pyMaxBy (fun r => r.converted_amount) first rest).rate,
        best_converted_amount :=
          (pyMaxBy (fun r => r.converted_amount) first rest).converted_amount,
        source_currency := request.source_currency,
        target_currency := request.target_currency,
        original_amount := request.amount,
        total_providers_queried := api_providers.length,
        successful_providers := (first :: rest).length,
        failed_providers :=
          (allResponses api_providers request).length - (first :: rest).length,
        total_time_ms := total_time_ms } := by
  unfold successfulResponses at hs
  simp only [get_best_exchange_rate]
  rw [hs]

/-- Fixture: an adapter that answers like the tests' `MockAPI` — a successful
normalized response at a fixed rate. -/
def mockProvider (nm : String) (rate : ℚ) : Provider :=
  { name := nm,
    call := fun req => Except.ok
      { provider_name := nm,
        converted_amount := req.amount * rate,
        rate := rate,
        response_time_ms := 0,
        success := true } }

/-- Fixture: an adapter whose call raises (the defensive-boundary case). -/
def failingProvider (nm msg : String) : Provider :=
  { name := nm, call := fun _ => Except.error msg }

/-- Fixture: the tests' standing request, 1000 USD → EUR. -/
def reqUSD : ExchangeRequest :=
  { source_currency := "USD", target_currency := "EUR", amount := 1000 }

/-- Fixture: three adapters in configuration order with a tie on the maximal
converted amount between the second and third. -/
def tieProviders : List Provider :=
  [mockProvider "A" (85/100), mockProvider "B" (86/100), mockProvider "C" (86/100)]

/-- **C1**: with at least one successful response, `get_best_exchange_rate`
returns the converted amount, rate and provider name of the successful
response with maximal `converted_amount`; every earlier successful response
is strictly smaller, so ties go to the adapter earliest in configuration
order, and the selection index depends only on the `converted_amount`
values, never on `rate`. -/
theorem getBestRate_selects_first_max_converted
    (api_providers : List Provider) (request : ExchangeRequest) (total_time_ms : ℚ)
    (h : successfulResponses api_providers request ≠ []) :
    ∃ l1 l2 best_response,
      successfulResponses api_providers request = l1 ++ best_response :: l2 ∧
      (get_best_exchange_rate api_providers request total_time_ms).best_provider =
        best_response.provider_name ∧
      (get_best_exchange_rate api_providers request total_time_ms).best_rate =
        best_response.rate ∧
      (get_best_exchange_rate api_providers request total_time_ms).best_converted_amount =
        best_response.converted_amount ∧
      (∀ r ∈ successfulResponses api_providers request,
        r.converted_amount ≤ best_response.converted_amount) ∧
      (∀ r ∈ l1, r.converted_amount < best_response.converted_amount) := by
  cases hcase : successfulResponses api_providers request with
  | nil => exact absurd hcase h
  | cons first rest =>
      have hg := get_best_eq_cons api_providers request total_time_ms first rest hcase
      obtain ⟨l1, l2, heq, h1, h2⟩ := pyMaxBy_decomp (fun r => r.converted_amount) first rest
      refine ⟨l1, l2, pyMaxBy (fun r => r.converted_amount) first rest,
        heq, by rw [hg], by rw [hg], by rw [hg], ?_, h1⟩
      intro r hr
      rw [heq] at hr
      rcases List.mem_append.mp hr with h' | h'
      · exact le_of_lt (h1 r h')
      · rcases List.mem_cons.mp h' with h'' | h''
        · exact le_of_eq (congrArg (fun x => x.converted_amount) h'')
        · exact h2 r h''

/-- Witness for C1 at the tie fixture: the claim's conclusion holds at a
concrete input where B and C tie at 860 and B (earlier) must win. -/
theorem getBestRate_selects_first_max_converted_witness :
    ∃ l1 l2 best_response,
      successfulResponses tieProviders reqUSD = l1 ++ best_response :: l2 ∧
      (get_best_exchange_rate tieProviders reqUSD 0).best_provider =
        best_response.provider_name ∧
      (get_best_exchange_rate tieProviders reqUSD 0).best_rate = best_response.rate ∧
      (get_best_exchange_rate tieProviders reqUSD 0).best_converted_amount =
        best_response.converted_amount ∧
      (∀ r ∈ successfulResponses tieProviders reqUSD,
        r.converted_amount ≤ best_response.converted_amount) ∧
      (∀ r ∈ l1, r.converted_amount < best_response.converted_amount) :=
  getBestRate_selects_first_max_converted tieProviders reqUSD 0
    (fun hnil => absurd (congrArg List.length hnil) (by decide))

/-- **C2**: for every provider list and request, the result of
`get_best_exchange_rate` satisfies `successful_providers + failed_providers
= total_providers_queried = number of configured providers`, and the
gathered response list holds exactly one response per configured provider. -/
theorem getBestRate_counts_partition
    (api_providers : List Provider) (request : ExchangeRequest) (total_time_ms : ℚ) :
    (get_best_exchange_rate api_providers request total_time_ms).successful_providers +
        (get_best_exchange_rate api_providers request total_time_ms).failed_providers =
      (get_best_exchange_rate api_providers request total_time_ms).total_providers_queried ∧
    (get_best_exchange_rate api_providers request total_time_ms).total_providers_queried =
      api_providers.length ∧
    (allResponses api_providers request).length = api_providers.length := by
  have hlen : (allResponses api_providers request).length = api_providers.length :=
    List.length_map _ _
  cases hcase : successfulResponses api_providers request with
  | nil =>
      rw [get_best_eq_nil api_providers request total_time_ms hcase]
      exact ⟨by simp, rfl, hlen⟩
  | cons first rest =>
      rw [get_best_eq_cons api_providers request total_time_ms first rest hcase]
      refine ⟨?_, rfl, hlen⟩
      have hle : (first :: rest).length ≤ (allResponses api_providers request).length := by
        rw [← hcase]
        exact List.length_filter_le _ _
      show (first :: rest).length +
          ((allResponses api_providers request).length - (first :: rest).length) =
        api_providers.length
      rw [Nat.add_sub_cancel' hle, hlen]

/-- C3, as written, fails on the code: when no adapter succeeds the sentinel
`best_provider` the service returns is the string `"NINGUNO"`, which is not
the string `"NONE"` — shown here at a one-adapter input whose call raises. -/
theorem getBestRate_sentinel_not_NONE :
    (get_best_exchange_rate [failingProvider "API1_JSON" "ConnectionError"] reqUSD
        0).best_provider ≠ "NONE" ∧
    (get_best_exchange_rate [failingProvider "API1_JSON" "ConnectionError"] reqUSD
        0).best_provider = "NINGUNO" := by
  exact ⟨by decide, rfl⟩

/-- **C3 (amended)**: when zero adapter responses are successful,
`get_best_exchange_rate` returns (rather than raises) a result whose
`best_provider` is the sentinel string `"NINGUNO"` (the code's spelling of
the none-marker), with rate 0, converted amount 0, zero successes, all
providers counted failed, and the request's currencies and amount echoed. -/
theorem getBestRate_total_failure_sentinel
    (api_providers : List Provider) (request : ExchangeRequest) (total_time_ms : ℚ)
    (h : successfulResponses api_providers request = []) :
    (get_best_exchange_rate api_providers request total_time_ms).best_provider = "NINGUNO" ∧
    (get_best_exchange_rate api_providers request total_time_ms).best_rate = 0 ∧
    (get_best_exchange_rate api_providers request total_time_ms).best_converted_amount = 0 ∧
    (get_best_exchange_rate api_providers request total_time_ms).successful_providers = 0 ∧
    (get_best_exchange_rate api_providers request total_time_ms).failed_providers =
      api_providers.length ∧
    (get_best_exchange_rate api_providers request total_time_ms).source_currency =
      request.source_currency ∧
    (get_best_exchange_rate api_providers request total_time_ms).target_currency =
      request.target_currency ∧
    (get_best_exchange_rate api_providers request total_time_ms).original_amount =
      request.amount := by
  rw [get_best_eq_nil api_providers request total_time_ms h]
  exact ⟨rfl, rfl, rfl, rfl, rfl, rfl, rfl, rfl⟩

/-- Witness for C3 (amended) at a concrete input: two adapters, one raising
and one answering a failed response. -/
theorem getBestRate_total_failure_sentinel_witness :
    (get_best_exchange_rate [failingProvider "API1_JSON" "ConnectionError",
        failingProvider "API2_XML" "Timeout"] reqUSD 0).best_provider = "NINGUNO" ∧
    (get_best_exchange_rate [failingProvider "API1_JSON" "ConnectionError",
        failingProvider "API2_XML" "Timeout"] reqUSD 0).best_rate = 0 ∧
    (get_best_exchange_rate [failingProvider "API1_JSON" "ConnectionError",
        failingProvider "API2_XML" "Timeout"] reqUSD 0).best_converted_amount = 0 ∧
    (get_best_exchange_rate [failingProvider "API1_JSON" "ConnectionError",
        failingProvider "API2_XML" "Timeout"] reqUSD 0).successful_providers = 0 ∧
    (get_best_exchange_rate [failingProvider "API1_JSON" "ConnectionError",
        failingProvider "API2_XML" "Timeout"] reqUSD 0).failed_providers =
      [failingProvider "API1_JSON" "ConnectionError",
        failingProvider "API2_XML" "Timeout"].length ∧
    (get_best_exchange_rate [failingProvider "API1_JSON" "ConnectionError",
        failingProvider "API2_XML" "Timeout"] reqUSD 0).source_currency =
      reqUSD.source_currency ∧
    (get_best_exchange_rate [failingProvider "API1_JSON" "ConnectionError",
        failingProvider "API2_XML" "Timeout"] reqUSD 0).target_currency =
      reqUSD.target_currency ∧
    (get_best_exchange_rate [failingProvider "API1_JSON" "ConnectionError",
        failingProvider "API2_XML" "Timeout"] reqUSD 0).original_amount = reqUSD.amount :=
  getBestRate_total_failure_sentinel
    [failingProvider "API1_JSON" "ConnectionError", failingProvider "API2_XML" "Timeout"]
    reqUSD 0 rfl

/-- A normalized failure: `success` is false and an `error_message` is set. -/
def failedWithMessage (r : ExchangeResponse) : Prop :=
  r.success = false ∧ r.error_message.isSome = true

theorem createErrorResponse_failed (name msg : String) (t : ℚ) :
    failedWithMessage (createErrorResponse name msg t) := ⟨rfl, rfl⟩

/-- C4, as written, fails on the code: the defensive boundary's
`error_message` is `"Error inesperado: " ++ fault` and does not identify
the adapter — two distinct adapters raising the same fault get identical
messages (the adapter is identified by `provider_name` alone). -/
theorem boundary_message_not_adapter_specific :
    (getRateWithSemaphore (failingProvider "API1_JSON" "ConnectionError") reqUSD).error_message =
      (getRateWithSemaphore (failingProvider "API2_XML" "ConnectionError") reqUSD).error_message ∧
    (getRateWithSemaphore (failingProvider "API1_JSON" "ConnectionError") reqUSD).error_message =
      some "Error inesperado: ConnectionError" ∧
    (getRateWithSemaphore (failingProvider "API1_JSON" "ConnectionError") reqUSD).provider_name ≠
      (getRateWithSemaphore (failingProvider "API2_XML" "ConnectionError") reqUSD).provider_name :=
  ⟨rfl, rfl, by decide⟩

/-- **C4 (amended)**: each adapter's `get_exchange_rate` never propagates an
exception (its embedding is total — the source `try`/`except` catches every
fault) and every enumerated internal failure — timeout, transport fault,
non-200 HTTP status, body that fails to decode, missing required field,
non-numeric required field, and for API3 an embedded non-success status —
yields a response with `success = false` and a set `error_message`; and
when the awaited adapter call itself raises, `_get_rate_with_semaphore`
converts the fault on the spot into a failed response whose `provider_name`
identifies the adapter and whose `error_message` identifies the fault, so
`get_best_exchange_rate` never fails due to adapter-level problems. -/
theorem adapters_capture_failures (req : ExchangeRequest) (t : ℚ) (m e pe : String)
    (st : ℕ) (body : Except String JsonVal) (d : JsonVal) :
    failedWithMessage (API1JsonProvider.get_exchange_rate HttpOutcome.timeout req t) ∧
    failedWithMessage (API1JsonProvider.get_exchange_rate (HttpOutcome.netError m) req t) ∧
    (st ≠ 200 → failedWithMessage
      (API1JsonProvider.get_exchange_rate (HttpOutcome.reply st body) req t)) ∧
    failedWithMessage
      (API1JsonProvider.get_exchange_rate (HttpOutcome.reply 200 (Except.error e)) req t) ∧
    (d.get "rate" = none → failedWithMessage (API1JsonProvider.parse_response d req t)) ∧
    (∀ v, d.get "rate" = some v → pyFloat v = Except.error pe →
      failedWithMessage (API1JsonProvider.parse_response d req t)) ∧
    failedWithMessage (API2XmlProvider.get_exchange_rate HttpOutcome.timeout req t) ∧
    failedWithMessage (API2XmlProvider.get_exchange_rate (HttpOutcome.netError m) req t) ∧
    (st ≠ 200 → failedWithMessage
      (API2XmlProvider.get_exchange_rate (HttpOutcome.reply st body) req t)) ∧
    failedWithMessage
      (API2XmlProvider.get_exchange_rate (HttpOutcome.reply 200 (Except.error e)) req t) ∧
    (d.get "XML" = none → failedWithMessage (API2XmlProvider.parse_response d req t)) ∧
    (∀ inner, d.get "XML" = some inner → inner.get "Result" = none →
      failedWithMessage (API2XmlProvider.parse_response d req t)) ∧
    (∀ inner v, d.get "XML" = some inner → inner.get "Result" = some v →
      pyFloat v = Except.error pe →
      failedWithMessage (API2XmlProvider.parse_response d req t)) ∧
    failedWithMessage (API3ComplexJsonProvider.get_exchange_rate HttpOutcome.timeout req t) ∧
    failedWithMessage
      (API3ComplexJsonProvider.get_exchange_rate (HttpOutcome.netError m) req t) ∧
    (st ≠ 200 → failedWithMessage
      (API3ComplexJsonProvider.get_exchange_rate (HttpOutcome.reply st body) req t)) ∧
    failedWithMessage
      (API3ComplexJsonProvider.get_exchange_rate (HttpOutcome.reply 200 (Except.error e)) req t) ∧
    (((d.get "statusCode").isNone || (d.get "data").isNone ||
        (((d.get "data").getD JsonVal.null).get "total").isNone) = true →
      failedWithMessage (API3ComplexJsonProvider.parse_response d req t)) ∧
    (((d.get "statusCode").isNone || (d.get "data").isNone ||
        (((d.get "data").getD JsonVal.null).get "total").isNone) = false →
      ((d.get "statusCode").getD JsonVal.null).ne200 = true →
      failedWithMessage (API3ComplexJsonProvider.parse_response d req t)) ∧
    (((d.get "statusCode").isNone || (d.get "data").isNone ||
        (((d.get "data").getD JsonVal.null).get "total").isNone) = false →
      ((d.get "statusCode").getD JsonVal.null).ne200 = false →
      pyFloat (((d.get "data").getD JsonVal.null).getD "total" JsonVal.null) =
        Except.error pe →
      failedWithMessage (API3ComplexJsonProvider.parse_response d req t)) ∧
    (∀ (p : Provider), p.call req = Except.error e →
      getRateWithSemaphore p req =
        { provider_name := p.name,
          converted_amount := 0,
          rate := 0,
          response_time_ms := 0,
          success := false,
          error_message := some ("Error inesperado: " ++ e) }) := by
  refine ⟨createErrorResponse_failed _ _ _, createErrorResponse_failed _ _ _, ?_, ?_, ?_, ?_,
    createErrorResponse_failed _ _ _, createErrorResponse_failed _ _ _, ?_, ?_, ?_, ?_, ?_,
    createErrorResponse_failed _ _ _, createErrorResponse_failed _ _ _, ?_, ?_, ?_, ?_, ?_,
    fun p h => getRateWithSemaphore_error p req e h⟩
  · intro hst
    simp only [API1JsonProvider.get_exchange_rate]
    rw [if_pos hst]
    exact createErrorResponse_failed _ _ _
  · simp only [API1JsonProvider.get_exchange_rate]
    rw [if_neg (fun hc => hc rfl)]
    exact createErrorResponse_failed _ _ _
  · intro h
    simp only [API1JsonProvider.parse_response]
    rw [h]
    exact createErrorResponse_failed _ _ _
  · intro v h1 h2
    simp [API1JsonProvider.parse_response, h1, h2]
    exact createErrorResponse_failed _ _ _
  · intro hst
    simp only [API2XmlProvider.get_exchange_rate]
    rw [if_pos hst]
    exact createErrorResponse_failed _ _ _
  · simp only [API2XmlProvider.get_exchange_rate]
    rw [if_neg (fun hc => hc rfl)]
    exact createErrorResponse_failed _ _ _
  · intro h
    simp only [API2XmlProvider.parse_response]
    rw [h]
    exact createErrorResponse_failed _ _ _
  · intro inner h1 h2
    simp [API2XmlProvider.parse_response, h1, h2]
    exact createErrorResponse_failed _ _ _
  · intro inner v h1 h2 h3
    simp [API2XmlProvider.parse_response, h1, h2, h3]
    exact createErrorResponse_failed _ _ _
  · intro hst
    simp only [API3ComplexJsonProvider.get_exchange_rate]
    rw [if_pos hst]
    exact createErrorResponse_failed _ _ _
  · simp only [API3ComplexJsonProvider.get_exchange_rate]
    rw [if_neg (fun hc => hc rfl)]
    exact createErrorResponse_failed _ _ _
  · intro hg
    simp [API3ComplexJsonProvider.parse_response, hg]
    exact createErrorResponse_failed _ _ _
  · intro hg hne
    simp [API3ComplexJsonProvider.parse_response, hg, hne]
    exact createErrorResponse_failed _ _ _
  · intro hg hne hpe
    simp [API3ComplexJsonProvider.parse_response, hg, hne, hpe]
    exact createErrorResponse_failed _ _ _

/-- Witness for C4 (amended): a concrete failure of each flavor — timeout,
non-200 status, missing field, malformed API3 payload — and a concrete
raising provider whose boundary response names the adapter in
`provider_name` and the fault in `error_message`. -/
theorem adapters_capture_failures_witness :
    failedWithMessage (API1JsonProvider.get_exchange_rate HttpOutcome.timeout reqUSD 0) ∧
    failedWithMessage (API2XmlProvider.get_exchange_rate
      (HttpOutcome.reply 404 (Except.ok JsonVal.null)) reqUSD 0) ∧
    failedWithMessage (API1JsonProvider.parse_response (JsonVal.obj []) reqUSD 0) ∧
    failedWithMessage (API3ComplexJsonProvider.parse_response (JsonVal.obj []) reqUSD 0) ∧
    getRateWithSemaphore (failingProvider "API1_JSON" "ConnectionError") reqUSD =
      { provider_name := "API1_JSON",
        converted_amount := 0,
        rate := 0,
        response_time_ms := 0,
        success := false,
        error_message := some "Error inesperado: ConnectionError" } := by
  obtain ⟨h1, _, _, _, h5, _, _, _, h9, _, _, _, _, _, _, _, _, h18, _, _, h21⟩ :=
    adapters_capture_failures reqUSD 0 "m" "ConnectionError" "pe" 404
      (Except.ok JsonVal.null) (JsonVal.obj [])
  exact ⟨h1, h9 (by decide), h5 rfl, h18 rfl,
    h21 (failingProvider "API1_JSON" "ConnectionError") rfl⟩

/-- **C7**: every response an adapter produces (for any HTTP outcome), and
every response the service's defensive boundary produces for a raising
call, is well-formed: a failure has `converted_amount = 0`, `rate = 0` and
an `error_message`; a success has no `error_message`. -/
theorem provider_results_wellformed
    (o : HttpOutcome) (request : ExchangeRequest) (t : ℚ) :
    responseWellFormed (API1JsonProvider.get_exchange_rate o request t) ∧
    responseWellFormed (API2XmlProvider.get_exchange_rate o request t) ∧
    responseWellFormed (API3ComplexJsonProvider.get_exchange_rate o request t) ∧
    (∀ (p : Provider) (e : String), p.call request = Except.error e →
      responseWellFormed (getRateWithSemaphore p request)) := by
  refine ⟨api1_get_wellFormed o request t, api2_get_wellFormed o request t,
    api3_get_wellFormed o request t, fun p e h => ?_⟩
  rw [getRateWithSemaphore_error p request e h]
  exact ⟨fun _ => ⟨rfl, rfl, rfl⟩, fun hs => by simp at hs⟩

/-- Witness for C7: a non-200 reply for each adapter and a raising provider
at the boundary, with the well-formedness conjuncts fully discharged. -/
theorem provider_results_wellformed_witness :
    responseWellFormed (API1JsonProvider.get_exchange_rate
      (HttpOutcome.reply 500 (Except.ok JsonVal.null)) reqUSD 0) ∧
    responseWellFormed (API2XmlProvider.get_exchange_rate
      (HttpOutcome.reply 500 (Except.ok JsonVal.null)) reqUSD 0) ∧
    responseWellFormed (API3ComplexJsonProvider.get_exchange_rate
      (HttpOutcome.reply 500 (Except.ok JsonVal.null)) reqUSD 0) ∧
    responseWellFormed (getRateWithSemaphore (failingProvider "X" "boom") reqUSD) := by
  have h := provider_results_wellformed (HttpOutcome.reply 500 (Except.ok JsonVal.null)) reqUSD 0
  exact ⟨h.1, h.2.1, h.2.2.1, h.2.2.2 (failingProvider "X" "boom") "boom" rfl⟩

/-- **C5**: constructing a request with a currency code whose length is not
3, or with a non-numeric, zero or negative amount, raises a `ValueError`
synchronously (the `Except.error` channel of `__post_init__`); lowercase
3-letter codes are accepted and stored upper-cased with the amount kept
unchanged (and, by hypothesis of the success case, strictly positive). -/
theorem request_validation_rules (sc tc : String) (a : PyAmount) :
    (sc.length ≠ 3 → ∃ e, mkExchangeRequest sc tc a = Except.error e) ∧
    (tc.length ≠ 3 → ∃ e, mkExchangeRequest sc tc a = Except.error e) ∧
    (a = PyAmount.nonNumeric → ∃ e, mkExchangeRequest sc tc a = Except.error e) ∧
    (∀ q, a = PyAmount.num q → q ≤ 0 → ∃ e, mkExchangeRequest sc tc a = Except.error e) ∧
    (∀ q, a = PyAmount.num q → 0 < q → sc.length = 3 → tc.length = 3 →
      mkExchangeRequest sc tc a =
        Except.ok { source_currency := pyUpper sc, target_currency := pyUpper tc,
                    amount := q }) := by
  unfold mkExchangeRequest
  refine ⟨?_, ?_, ?_, ?_, ?_⟩
  · intro h
    rw [if_pos h]
    exact ⟨_, rfl⟩
  · intro h
    by_cases h1 : sc.length ≠ 3
    · rw [if_pos h1]; exact ⟨_, rfl⟩
    · rw [if_neg h1, if_pos h]; exact ⟨_, rfl⟩
  · intro h
    subst h
    by_cases h1 : sc.length ≠ 3
    · rw [if_pos h1]; exact ⟨_, rfl⟩
    · by_cases h2 : tc.length ≠ 3
      · rw [if_neg h1, if_pos h2]; exact ⟨_, rfl⟩
      · rw [if_neg h1, if_neg h2]; exact ⟨_, rfl⟩
  · intro q hq hle
    subst hq
    by_cases h1 : sc.length ≠ 3
    · rw [if_pos h1]; exact ⟨_, rfl⟩
    · by_cases h2 : tc.length ≠ 3
      · rw [if_neg h1, if_pos h2]; exact ⟨_, rfl⟩
      · rw [if_neg h1, if_neg h2]
        dsimp only
        rw [if_pos hle]
        exact ⟨_, rfl⟩
  · intro q hq hpos h3 h4
    subst hq
    rw [if_neg (fun hc => hc h3), if_neg (fun hc => hc h4)]
    dsimp only
    rw [if_neg (not_le.mpr hpos)]

/-- Witness for C5: a 4-letter source code, a 2-letter target code, a
non-numeric, a negative and a zero amount each fail; lowercase codes are
normalized to uppercase. -/
theorem request_validation_rules_witness :
    (∃ e, mkExchangeRequest "USDD" "EUR" (PyAmount.num 1000) = Except.error e) ∧
    (∃ e, mkExchangeRequest "USD" "EU" (PyAmount.num 1000) = Except.error e) ∧
    (∃ e, mkExchangeRequest "USD" "EUR" PyAmount.nonNumeric = Except.error e) ∧
    (∃ e, mkExchangeRequest "USD" "EUR" (PyAmount.num (-100)) = Except.error e) ∧
    (∃ e, mkExchangeRequest "USD" "EUR" (PyAmount.num 0) = Except.error e) ∧
    mkExchangeRequest "usd" "eur" (PyAmount.num 1000) =
      Except.ok { source_currency := "USD", target_currency := "EUR", amount := 1000 } := by
  refine ⟨(request_validation_rules "USDD" "EUR" (PyAmount.num 1000)).1 (by decide),
    (request_validation_rules "USD" "EU" (PyAmount.num 1000)).2.1 (by decide),
    (request_validation_rules "USD" "EUR" PyAmount.nonNumeric).2.2.1 rfl,
    (request_validation_rules "USD" "EUR" (PyAmount.num (-100))).2.2.2.1 (-100) rfl
      (by norm_num),
    (request_validation_rules "USD" "EUR" (PyAmount.num 0)).2.2.2.1 0 rfl le_rfl, ?_⟩
  have h := (request_validation_rules "usd" "eur" (PyAmount.num 1000)).2.2.2.2 1000 rfl
    (by norm_num) (by decide) (by decide)
  rw [h]
  rfl

/-- **C10**: `__post_init__` validates only that each code has length
exactly 3 — alphabetic content is not checked, so any 3-character string is
accepted — and the check reads the raw input (upper-casing happens after
validation, as the result's `toUpper` fields show). -/
theorem request_validation_length_only (sc tc : String) (q : ℚ) (hq : 0 < q) :
    ((∃ r, mkExchangeRequest sc tc (PyAmount.num q) = Except.ok r) ↔
      sc.length = 3 ∧ tc.length = 3) ∧
    (sc.length = 3 → tc.length = 3 →
      mkExchangeRequest sc tc (PyAmount.num q) =
        Except.ok { source_currency := pyUpper sc, target_currency := pyUpper tc,
                    amount := q }) := by
  have hok : sc.length = 3 → tc.length = 3 →
      mkExchangeRequest sc tc (PyAmount.num q) =
        Except.ok { source_currency := pyUpper sc, target_currency := pyUpper tc,
                    amount := q } := by
    intro h3 h4
    unfold mkExchangeRequest
    rw [if_neg (fun hc => hc h3), if_neg (fun hc => hc h4)]
    dsimp only
    rw [if_neg (not_le.mpr hq)]
  refine ⟨⟨?_, fun h => ⟨_, hok h.1 h.2⟩⟩, hok⟩
  rintro ⟨r, hr⟩
  unfold mkExchangeRequest at hr
  by_cases h1 : sc.length ≠ 3
  · rw [if_pos h1] at hr; cases hr
  · by_cases h2 : tc.length ≠ 3
    · rw [if_neg h1, if_pos h2] at hr; cases hr
    · exact ⟨not_not.mp h1, not_not.mp h2⟩

/-- Witness for C10: the non-alphabetic 3-character codes `"12$"` and
`"us1"` are accepted, with the raw codes merely upper-cased. -/
theorem request_validation_length_only_witness :
    ((∃ r, mkExchangeRequest "12$" "us1" (PyAmount.num 5) = Except.ok r) ↔
      ("12$".length = 3 ∧ "us1".length = 3)) ∧
    mkExchangeRequest "12$" "us1" (PyAmount.num 5) =
      Except.ok { source_currency := "12$", target_currency := "US1", amount := 5 } := by
  have h := request_validation_length_only "12$" "us1" 5 (by norm_num)
  refine ⟨h.1, ?_⟩
  rw [h.2 rfl rfl]
  rfl

/-- **C6**: a 200-status API3 payload whose embedded `statusCode` differs
from 200 is normalized to a failed response — `_create_error_response` with
the payload's `message` — never a successful response with rate 0. -/
theorem api3_embedded_status_failure
    (d dv sc tv : JsonVal) (msg : String) (request : ExchangeRequest) (t : ℚ)
    (hsc : d.get "statusCode" = some sc)
    (hne : sc.ne200 = true)
    (hdata : d.get "data" = some dv)
    (htot : dv.get "total" = some tv)
    (hmsg : d.get "message" = some (JsonVal.str msg)) :
    API3ComplexJsonProvider.parse_response d request t =
      createErrorResponse API3ComplexJsonProvider.name msg t := by
  unfold API3ComplexJsonProvider.parse_response
  rw [hsc, hdata, hmsg]
  simp [htot, hne]

/-- Witness for C6: a payload with `statusCode = 500` and a message. -/
theorem api3_embedded_status_failure_witness :
    API3ComplexJsonProvider.parse_response
        (JsonVal.obj [("statusCode", JsonVal.num 500),
          ("message", JsonVal.str "Divisa no soportada"),
          ("data", JsonVal.obj [("total", JsonVal.num 0)])]) reqUSD 0 =
      createErrorResponse API3ComplexJsonProvider.name "Divisa no soportada" 0 :=
  api3_embedded_status_failure
    (JsonVal.obj [("statusCode", JsonVal.num 500),
      ("message", JsonVal.str "Divisa no soportada"),
      ("data", JsonVal.obj [("total", JsonVal.num 0)])])
    (JsonVal.obj [("total", JsonVal.num 0)]) (JsonVal.num 500) (JsonVal.num 0)
    "Divisa no soportada" reqUSD 0 rfl rfl rfl rfl rfl

/-- **C8**: every successful parse satisfies the adapter's arithmetic
relation exactly: API1 (which receives a rate) returns
`converted_amount = amount * rate`; API2 and API3 (which receive only a
converted total) return `rate = converted_amount / amount`. -/
theorem rate_conversion_roundtrip (d : JsonVal) (request : ExchangeRequest) (t : ℚ) :
    ((API1JsonProvider.parse_response d request t).success = true →
      (API1JsonProvider.parse_response d request t).converted_amount =
        request.amount * (API1JsonProvider.parse_response d request t).rate) ∧
    ((API2XmlProvider.parse_response d request t).success = true →
      (API2XmlProvider.parse_response d request t).rate =
        (API2XmlProvider.parse_response d request t).converted_amount / request.amount) ∧
    ((API3ComplexJsonProvider.parse_response d request t).success = true →
      (API3ComplexJsonProvider.parse_response d request t).rate =
        (API3ComplexJsonProvider.parse_response d request t).converted_amount /
          request.amount) := by
  refine ⟨?_, ?_, ?_⟩
  · unfold API1JsonProvider.parse_response
    split
    · intro h; simp [createErrorResponse] at h
    · split
      · intro h; simp [createErrorResponse] at h
      · intro _; rfl
  · unfold API2XmlProvider.parse_response
    split
    · intro h; simp [createErrorResponse] at h
    · split
      · intro h; simp [createErrorResponse] at h
      · split
        · intro h; simp [createErrorResponse] at h
        · intro _; rfl
  · unfold API3ComplexJsonProvider.parse_response
    split
    · intro h; simp [createErrorResponse] at h
    · split
      · intro h; simp [createErrorResponse] at h
      · split
        · intro h; simp [createErrorResponse] at h
        · intro _; rfl

/-- Witness for C8: a rate payload for API1, an XML total (as the decimal
string xmltodict yields) for API2, and a nested JSON total for API3. -/
theorem rate_conversion_roundtrip_witness :
    (API1JsonProvider.parse_response (JsonVal.obj [("rate", JsonVal.num (85/100))])
        reqUSD 0).converted_amount =
      reqUSD.amount * (API1JsonProvider.parse_response
        (JsonVal.obj [("rate", JsonVal.num (85/100))]) reqUSD 0).rate ∧
    (API2XmlProvider.parse_response
        (JsonVal.obj [("XML", JsonVal.obj [("Result", JsonVal.str "850.0")])])
        reqUSD 0).rate =
      (API2XmlProvider.parse_response
        (JsonVal.obj [("XML", JsonVal.obj [("Result", JsonVal.str "850.0")])])
        reqUSD 0).converted_amount / reqUSD.amount ∧
    (API3ComplexJsonProvider.parse_response
        (JsonVal.obj [("statusCode", JsonVal.num 200), ("message", JsonVal.str "ok"),
          ("data", JsonVal.obj [("total", JsonVal.num 850)])]) reqUSD 0).rate =
      (API3ComplexJsonProvider.parse_response
        (JsonVal.obj [("statusCode", JsonVal.num 200), ("message", JsonVal.str "ok"),
          ("data", JsonVal.obj [("total", JsonVal.num 850)])]) reqUSD 0).converted_amount /
        reqUSD.amount :=
  ⟨(rate_conversion_roundtrip (JsonVal.obj [("rate", JsonVal.num (85/100))]) reqUSD 0).1 rfl,
    (rate_conversion_roundtrip
      (JsonVal.obj [("XML", JsonVal.obj [("Result", JsonVal.str "850.0")])]) reqUSD 0).2.1 rfl,
    (rate_conversion_roundtrip
      (JsonVal.obj [("statusCode", JsonVal.num 200), ("message", JsonVal.str "ok"),
        ("data", JsonVal.obj [("total", JsonVal.num 850)])]) reqUSD 0).2.2 rfl⟩

theorem countP_set_add (p : TaskStatus → Bool) (l : List TaskStatus) (i : ℕ)
    (a b : TaskStatus) (h : l.get? i = some a) :
    (l.set i b).countP p + (if p a then 1 else 0) =
      l.countP p + (if p b then 1 else 0) := by
  induction l generalizing i with
  | nil => simp at h
  | cons c rest ih =>
      cases i with
      | zero =>
          simp only [List.get?] at h
          injection h with h
          subst h
          simp only [List.set, List.countP_cons]
          omega
      | succ i =>
          simp only [List.get?] at h
          have := ih i h
          simp only [List.set, List.countP_cons]
          omega

theorem inFlightCount_replicate_notStarted (n : ℕ) :
    inFlightCount (List.replicate n TaskStatus.notStarted) = 0 := by
  unfold inFlightCount
  refine List.countP_eq_zero.mpr ?_
  intro a ha
  rw [List.eq_of_mem_replicate ha]
  simp [TaskStatus.isInFlight]

theorem gatherDone_all_finished (tasks : List TaskStatus)
    (h : gatherDone tasks = true) : ∀ s ∈ tasks, s = TaskStatus.finished := by
  intro s hs
  have := List.all_eq_true.mp h s hs
  cases s with
  | notStarted => simp [TaskStatus.isFinished] at this
  | inFlight => simp [TaskStatus.isFinished] at this
  | finished => rfl

/-- **C9**: under the semaphore discipline, every state the scheduler can
reach from the initial task list keeps one task per configured adapter
(none dropped or skipped), never holds more than `C` permits at once, and
the gather point — after which the reduction runs — is reached only when
every one of the `n` tasks has completed (no early return or abort). -/
theorem semaphore_concurrency_bound (C n : ℕ) (tasks : List TaskStatus)
    (h : ReachableTasks C n tasks) :
    tasks.length = n ∧ inFlightCount tasks ≤ C ∧
      (gatherDone tasks = true → ∀ s ∈ tasks, s = TaskStatus.finished) := by
  have key : tasks.length = n ∧ inFlightCount tasks ≤ C := by
    unfold ReachableTasks at h
    induction h with
    | refl =>
        exact ⟨by simp [initTasks],
          by rw [initTasks, inFlightCount_replicate_notStarted]; exact Nat.zero_le C⟩
    | @tail mid fin hsteps step ih =>
        obtain ⟨hlen, hcount⟩ := ih
        cases step with
        | acquire i hi hc =>
            refine ⟨by rw [List.length_set]; exact hlen, ?_⟩
            have h' := countP_set_add TaskStatus.isInFlight mid i
              TaskStatus.notStarted TaskStatus.inFlight hi
            simp [TaskStatus.isInFlight] at h'
            unfold inFlightCount at hc ⊢
            omega
        | complete i hi =>
            refine ⟨by rw [List.length_set]; exact hlen, ?_⟩
            have h' := countP_set_add TaskStatus.isInFlight mid i
              TaskStatus.inFlight TaskStatus.finished hi
            simp [TaskStatus.isInFlight] at h'
            unfold inFlightCount at hcount ⊢
            omega
  exact ⟨key.1, key.2, gatherDone_all_finished tasks⟩

/-- Witness for C9: with `C = 2` and three adapters, the state after
the first task acquires a permit is reachable, keeps the three tasks, and respects
the permit bound. -/
theorem semaphore_concurrency_bound_witness :
    [TaskStatus.inFlight, TaskStatus.notStarted, TaskStatus.notStarted].length = 3 ∧
    inFlightCount [TaskStatus.inFlight, TaskStatus.notStarted, TaskStatus.notStarted] ≤ 2 ∧
    (gatherDone [TaskStatus.inFlight, TaskStatus.notStarted, TaskStatus.notStarted] = true →
      ∀ s ∈ [TaskStatus.inFlight, TaskStatus.notStarted, TaskStatus.notStarted],
        s = TaskStatus.finished) := by
  have hstep : SemStep 2 (initTasks 3)
      [TaskStatus.inFlight, TaskStatus.notStarted, TaskStatus.notStarted] :=
    SemStep.acquire (initTasks 3) 0 rfl (by decide)
  exact semaphore_concurrency_bound 2 3 _ (Relation.ReflTransGen.single hstep)
